import Mathlib

/-!
Verification of the interaction-encoding core of `temporal-template-rs`.

The main embedding follows `crates/temporal-template/src/temp.rs`:
the key registry (`KeysToTemporalAction`), the interaction descriptor
(`TemporalInteraction` with its three variants), the encoder
(`build_slack_info_string`) and the single-use map extraction
(`get_value`).  The dispatcher crate
(`crates/temporal_sdk_helpers/src/lib.rs`) is embedded in the
`SdkHelpers` namespace.  The decoder described by the specification has
no implementation in the repository sources; it is modelled from the
specification text, with each such definition marked in its doc comment.
-/

namespace TemporalTemplate

/-- Wire field delimiter (`SLACK_INFO_DELIMITER` in the source). -/
def SLACK_INFO_DELIMITER : String := ","

/-- Key/value delimiter (`TEMPORAL_KEY_DELIMITER` in the source). -/
def TEMPORAL_KEY_DELIMITER : String := ":"

/-- The fixed key registry, in declaration order (the order `EnumIter`
iterates in): EventType, WorkflowId, Namespace, TaskQueue,
WorkflowTypeName, RunId, SignalName, QueryType, QueryArgs. -/
inductive KeysToTemporalAction where
  | E | W | N | T | Y | R | S | Q | U
  deriving DecidableEq, Repr

/-- The strum `Display` of a key: its variant name, one character. -/
def KeysToTemporalAction.str : KeysToTemporalAction → String
  | .E => "E"
  | .W => "W"
  | .N => "N"
  | .T => "T"
  | .Y => "Y"
  | .R => "R"
  | .S => "S"
  | .Q => "Q"
  | .U => "U"

/-- `KeysToTemporalAction::to_kv`: `format!("{}{}{}", self, ":", value)`. -/
def KeysToTemporalAction.to_kv (k : KeysToTemporalAction) (value : String) : String :=
  k.str ++ TEMPORAL_KEY_DELIMITER ++ value

/-- The iteration order of `KeysToTemporalAction::iter()` (strum
`EnumIter`: declaration order). -/
def KeysToTemporalAction.iter : List KeysToTemporalAction :=
  [.E, .W, .N, .T, .Y, .R, .S, .Q, .U]

/-- `serde_json::Value` is opaque to all code under verification except
for its textual rendering (`Value::to_string`, used once, in the Query
arm's `query_args()`).  It is therefore embedded as that rendering. -/
abbrev JsonValue := String

/-- `ExecuteTemporalWorkflow` (the `namespace` field is spelled
`namespace'` because `namespace` is a Lean keyword). -/
structure ExecuteTemporalWorkflow where
  namespace' : String
  task_queue : String
  workflow_id : String
  workflow_type : String
  args : Option (List JsonValue)
  deriving DecidableEq, Repr

/-- `SignalTemporal`. -/
structure SignalTemporal where
  namespace' : String
  task_queue : String
  workflow_id : Option String
  run_id : Option String
  signal_name : String
  input : Option (List JsonValue)
  identity : Option String
  request_id : Option String
  control : Option String
  deriving DecidableEq, Repr

/-- `QueryTemporal`. -/
structure QueryTemporal where
  namespace' : String
  task_queue : String
  workflow_id : Option String
  run_id : Option String
  query_type : String
  query_args : Option (List JsonValue)
  deriving DecidableEq, Repr

/-- `TemporalInteraction`: the tagged union of the three variants. -/
inductive TemporalInteraction where
  | Execute (action : ExecuteTemporalWorkflow)
  | Signal (action : SignalTemporal)
  | Query (action : QueryTemporal)
  deriving DecidableEq, Repr

/-- `Option<String>` read the way the source's `map_or("".into(), clone)`
reads it: `None` becomes the empty string. -/
def optStr : Option String → String
  | none => ""
  | some v => v

/-- `SignalTemporal::run_id` (the accessor returning `String`). -/
def SignalTemporal.run_id_str (s : SignalTemporal) : String :=
  optStr s.run_id

/-- `QueryTemporal::run_id` (the accessor returning `String`). -/
def QueryTemporal.run_id_str (q : QueryTemporal) : String :=
  optStr q.run_id

/-- `QueryTemporal::query_args`: the textual form of the first query
argument, or the empty string when the list is absent or empty. -/
def QueryTemporal.query_args_str (q : QueryTemporal) : String :=
  match q.query_args with
  | none => ""
  | some l =>
    match l.head? with
    | none => ""
    | some arg => arg

/-- `TemporalInteraction::to_type_string`: the discriminant's name. -/
def TemporalInteraction.to_type_string : TemporalInteraction → String
  | .Execute _ => "Execute"
  | .Signal _ => "Signal"
  | .Query _ => "Query"

/-- `TemporalInteraction::workflow_id`: required for Execute, optional
(empty when absent) for Signal and Query. -/
def TemporalInteraction.workflow_id_str : TemporalInteraction → String
  | .Execute action => action.workflow_id
  | .Signal action => optStr action.workflow_id
  | .Query action => optStr action.workflow_id

/-- `TemporalInteraction::task_queue`. -/
def TemporalInteraction.task_queue_str : TemporalInteraction → String
  | .Execute action => action.task_queue
  | .Signal action => action.task_queue
  | .Query action => action.task_queue

/-- `TemporalInteraction::namespace`. -/
def TemporalInteraction.namespace_str : TemporalInteraction → String
  | .Execute action => action.namespace'
  | .Signal action => action.namespace'
  | .Query action => action.namespace'

/-- `TemporalInteraction::add_data_args`: returns a new descriptor with
the payload field (`args` / `input` / `query_args`) replaced. -/
def TemporalInteraction.add_data_args :
    TemporalInteraction → Option (List JsonValue) → TemporalInteraction
  | .Execute exec, args => .Execute { exec with args := args }
  | .Signal signal, args => .Signal { signal with input := args }
  | .Query query, args => .Query { query with query_args := args }

/-- `Vec::join(",")` on the collected pair list. -/
def joinComma : List String → String
  | [] => ""
  | [s] => s
  | s :: rest => s ++ SLACK_INFO_DELIMITER ++ joinComma rest

/-- The `kv_pairs` vector that `build_slack_info_string` collects: the
EventType pair first, then, per variant, one pair per registry key the
arm pushes (`continue` skips the rest).  In the Query arm the source
evaluates each `key.to_kv(...)` string as the value of a `match`
*statement* and discards it — nothing is pushed, which is mirrored here
by the unused `_computed` binding. -/
def slack_kv_pairs (temporal_interaction : TemporalInteraction) : List String :=
  let namespace_v := temporal_interaction.namespace_str
  let task_queue_v := temporal_interaction.task_queue_str
  let workflow_id_v := temporal_interaction.workflow_id_str
  let head := KeysToTemporalAction.E.to_kv temporal_interaction.to_type_string
  let rest : List String :=
    match temporal_interaction with
    | .Execute action =>
      KeysToTemporalAction.iter.filterMap fun key =>
        match key with
        | .W => some (key.to_kv workflow_id_v)
        | .N => some (key.to_kv namespace_v)
        | .T => some (key.to_kv task_queue_v)
        | .Y => some (key.to_kv action.workflow_type)
        | _ => none
    | .Signal action =>
      KeysToTemporalAction.iter.filterMap fun key =>
        match key with
        | .W => some (key.to_kv workflow_id_v)
        | .N => some (key.to_kv namespace_v)
        | .T => some (key.to_kv task_queue_v)
        | .R => some (key.to_kv action.run_id_str)
        | .S => some (key.to_kv action.signal_name)
        | _ => none
    | .Query action =>
      let _computed :=
        KeysToTemporalAction.iter.filterMap fun key =>
          match key with
          | .W => some (key.to_kv workflow_id_v)
          | .N => some (key.to_kv namespace_v)
          | .T => some (key.to_kv task_queue_v)
          | .Q => some (key.to_kv action.query_type)
          | .U => some (key.to_kv action.query_args_str)
          | _ => none
      []
  head :: rest

/-- `build_slack_info_string`: the encoder. -/
def build_slack_info_string (temporal_interaction : TemporalInteraction) : String :=
  joinComma (slack_kv_pairs temporal_interaction)

/-- The decode-error taxonomy of the specification (§7): the source's
`get_value` raises an anyhow error naming the missing key, which is the
`KeyMissing` case here. -/
inductive DecodeError where
  | MalformedPair (pair : String)
  | UnknownKey (key : String)
  | UnknownVariant (name : String)
  | KeyMissing (key : KeysToTemporalAction)
  deriving DecidableEq, Repr

/-- The decoder's key→value map (`HashMap<KeysToTemporalAction, &str>`),
embedded extensionally: a key maps to at most one value. -/
def EncoderMap := KeysToTemporalAction → Option String

/-- The empty map. -/
def EncoderMap.empty : EncoderMap := fun _ => none

/-- `HashMap::insert`: later insertions for the same key overwrite. -/
def EncoderMap.insert (m : EncoderMap) (k : KeysToTemporalAction) (v : String) :
    EncoderMap :=
  fun k2 => if k2 = k then some v else m k2

/-- `HashMap::remove`'s effect on the map: the key is gone afterwards. -/
def EncoderMap.removeKey (m : EncoderMap) (k : KeysToTemporalAction) : EncoderMap :=
  fun k2 => if k2 = k then none else m k2

/-- `KeysToTemporalAction::get_value`: `encoder_map.remove(self)`, an
error when the key is absent.  The Rust function mutates the map through
`&mut`; that mutation is embedded by returning the updated map alongside
the result (unchanged in the error case, exactly as `remove` on an
absent key leaves a `HashMap` unchanged). -/
def KeysToTemporalAction.get_value (k : KeysToTemporalAction) (encoder_map : EncoderMap) :
    Except DecodeError String × EncoderMap :=
  match encoder_map k with
  | some v => (Except.ok v, encoder_map.removeKey k)
  | none => (Except.error (DecodeError.KeyMissing k), encoder_map)

/-- Modelled from the spec: splitting a character list at every
occurrence of the field delimiter (§4.3 step 1). -/
def splitOnCharList (c : Char) : List Char → List (List Char)
  | [] => [[]]
  | x :: xs =>
    let r := splitOnCharList c xs
    if x = c then [] :: r
    else
      match r with
      | [] => [[x]]
      | y :: ys => (x :: y) :: ys

/-- Modelled from the spec: `token.split(',')` over strings. -/
def splitOnChar (c : Char) (s : String) : List String :=
  (splitOnCharList c s.data).map fun l => String.mk l

/-- Modelled from the spec: splitting a raw pair at the **first**
occurrence of the key/value delimiter (§4.3 step 2); `none` when the
delimiter does not occur. -/
def splitFirstChar (c : Char) : List Char → Option (List Char × List Char)
  | [] => none
  | x :: xs =>
    if x = c then some ([], xs)
    else
      match splitFirstChar c xs with
      | none => none
      | some (a, b) => some (x :: a, b)

/-- Modelled from the spec: the registry key named by a one-character
string, `none` for anything outside the registry. -/
def key_of_string (s : String) : Option KeysToTemporalAction :=
  if s = "E" then some .E
  else if s = "W" then some .W
  else if s = "N" then some .N
  else if s = "T" then some .T
  else if s = "Y" then some .Y
  else if s = "R" then some .R
  else if s = "S" then some .S
  else if s = "Q" then some .Q
  else if s = "U" then some .U
  else none

/-- Modelled from the spec: parsing one raw pair (§4.3 step 2) — a pair
with no key/value delimiter is `MalformedPair`, an unrecognized key
character is `UnknownKey`. -/
def parse_pair (raw : String) : Except DecodeError (KeysToTemporalAction × String) :=
  match splitFirstChar ':' raw.data with
  | none => Except.error (DecodeError.MalformedPair raw)
  | some (kchars, vchars) =>
    match key_of_string (String.mk kchars) with
    | none => Except.error (DecodeError.UnknownKey (String.mk kchars))
    | some k => Except.ok (k, String.mk vchars)

/-- Modelled from the spec: parsing every raw pair in order, failing on
the first bad pair. -/
def parse_pairs : List String → Except DecodeError (List (KeysToTemporalAction × String))
  | [] => Except.ok []
  | raw :: rest => do
    let p ← parse_pair raw
    let ps ← parse_pairs rest
    return p :: ps

/-- Modelled from the spec: the one-shot lookup structure built from the
parsed pairs (§4.3 step 3). -/
def build_map (pairs : List (KeysToTemporalAction × String)) : EncoderMap :=
  pairs.foldl (fun m kv => m.insert kv.1 kv.2) EncoderMap.empty

/-- Modelled from the spec: retrieval of an optional key (§4.3 step 4,
"absent-or-empty is valid") — an absent key or an empty value yields
`none`, and a present key is consumed like any other read. -/
def opt_value (k : KeysToTemporalAction) (m : EncoderMap) :
    Option String × EncoderMap :=
  match m k with
  | some v => ((if v = "" then none else some v), m.removeKey k)
  | none => (none, m)

/-- Modelled from the spec: the decoder (§4.3).  Split the token on `,`,
parse each pair at its first `:`, build the one-shot map, read the
EventType key first, dispatch on its value, and extract exactly the keys
the variant requires (required keys through `get_value`, optional keys
through `opt_value`, in registry order); leftovers are ignored. -/
def decode (token : String) : Except DecodeError TemporalInteraction := do
  let raws := splitOnChar ',' token
  let pairs ← parse_pairs raws
  let m := build_map pairs
  let (evE, m) := KeysToTemporalAction.get_value .E m
  let ev ← evE
  match ev with
  | "Execute" => do
    let (widE, m) := KeysToTemporalAction.get_value .W m
    let wid ← widE
    let (nsE, m) := KeysToTemporalAction.get_value .N m
    let ns ← nsE
    let (tqE, m) := KeysToTemporalAction.get_value .T m
    let tq ← tqE
    let (wtE, _) := KeysToTemporalAction.get_value .Y m
    let wt ← wtE
    return TemporalInteraction.Execute ⟨ns, tq, wid, wt, none⟩
  | "Signal" => do
    let (wid, m) := opt_value .W m
    let (nsE, m) := KeysToTemporalAction.get_value .N m
    let ns ← nsE
    let (tqE, m) := KeysToTemporalAction.get_value .T m
    let tq ← tqE
    let (rid, m) := opt_value .R m
    let (snE, _) := KeysToTemporalAction.get_value .S m
    let sn ← snE
    return TemporalInteraction.Signal ⟨ns, tq, wid, rid, sn, none, none, none, none⟩
  | "Query" => do
    let (wid, m) := opt_value .W m
    let (nsE, m) := KeysToTemporalAction.get_value .N m
    let ns ← nsE
    let (tqE, m) := KeysToTemporalAction.get_value .T m
    let tq ← tqE
    let (rid, m) := opt_value .R m
    let (qtE, m) := KeysToTemporalAction.get_value .Q m
    let qt ← qtE
    let (qa, _) := opt_value .U m
    return TemporalInteraction.Query ⟨ns, tq, wid, rid, qt, qa.map fun v => [v]⟩
  | other => Except.error (DecodeError.UnknownVariant other)

/-- An optional string value after one encode/decode round trip: a
present non-empty value survives, while an absent value and a present
empty value both come back as `none` (the token encodes both as an empty
value, the "absent/empty representation" of the specification). -/
def normalizeOpt : Option String → Option String
  | none => none
  | some v => if v = "" then none else some v

/-- The descriptor a successful decode of an encoded descriptor yields:
required fields unchanged, out-of-band payload fields (`args`, `input`,
`query_args`) and the never-encoded `identity`/`request_id`/`control`
reset to `none`, optional string fields normalized. -/
def decode_roundtrip_form : TemporalInteraction → TemporalInteraction
  | .Execute e => .Execute ⟨e.namespace', e.task_queue, e.workflow_id, e.workflow_type, none⟩
  | .Signal s =>
    .Signal ⟨s.namespace', s.task_queue, normalizeOpt s.workflow_id, normalizeOpt s.run_id,
      s.signal_name, none, none, none, none⟩
  | .Query q => .Query q

/-- A string free of both wire delimiters, the encoder's documented
precondition on field values. -/
def delim_free (s : String) : Prop := ',' ∉ s.data ∧ ':' ∉ s.data

instance (s : String) : Decidable (delim_free s) := by
  unfold delim_free
  infer_instance

/-- Every field value the encoder writes for this descriptor is free of
the wire delimiters. -/
def fields_delim_free : TemporalInteraction → Prop
  | .Execute e =>
    delim_free e.namespace' ∧ delim_free e.task_queue ∧
      delim_free e.workflow_id ∧ delim_free e.workflow_type
  | .Signal s =>
    delim_free s.namespace' ∧ delim_free s.task_queue ∧
      delim_free (optStr s.workflow_id) ∧ delim_free (optStr s.run_id) ∧
      delim_free s.signal_name
  | .Query q =>
    delim_free q.namespace' ∧ delim_free q.task_queue ∧
      delim_free (optStr q.workflow_id) ∧ delim_free (optStr q.run_id) ∧
      delim_free q.query_type ∧ delim_free q.query_args_str

theorem data_to_kv (k : KeysToTemporalAction) (v : String) :
    (k.to_kv v).data = k.str.data ++ ':' :: v.data := by
  simp [KeysToTemporalAction.to_kv, TEMPORAL_KEY_DELIMITER, String.data_append]

theorem key_str_head (k : KeysToTemporalAction) :
    ∃ c, k.str.data = [c] ∧ c ≠ ':' ∧ c ≠ ',' ∧ key_of_string (String.mk [c]) = some k := by
  cases k <;> exact ⟨_, rfl, by decide, by decide, rfl⟩

theorem comma_not_mem_to_kv (k : KeysToTemporalAction) (v : String) (hv : ',' ∉ v.data) :
    ',' ∉ (k.to_kv v).data := by
  obtain ⟨c, hc, _, hcm, _⟩ := key_str_head k
  rw [data_to_kv, hc]
  intro hmem
  rcases List.mem_append.mp hmem with h1 | h2
  · exact hcm (List.mem_singleton.mp h1).symm
  · rcases List.mem_cons.mp h2 with h3 | h4
    · exact absurd h3 (by decide)
    · exact hv h4

theorem splitOnCharList_of_not_mem (c : Char) (xs : List Char) (h : c ∉ xs) :
    splitOnCharList c xs = [xs] := by
  induction xs with
  | nil => rfl
  | cons x xs ih =>
    have hx : x ≠ c := fun hc => h (hc ▸ List.mem_cons_self x xs)
    have hxs : c ∉ xs := fun hc => h (List.mem_cons_of_mem x hc)
    simp [splitOnCharList, hx, ih hxs]

theorem splitOnCharList_append (c : Char) (xs ys : List Char) (h : c ∉ xs) :
    splitOnCharList c (xs ++ c :: ys) = xs :: splitOnCharList c ys := by
  induction xs with
  | nil => simp [splitOnCharList]
  | cons x xs ih =>
    have hx : x ≠ c := fun hc => h (hc ▸ List.mem_cons_self x xs)
    have hxs : c ∉ xs := fun hc => h (List.mem_cons_of_mem x hc)
    simp [splitOnCharList, hx, ih hxs]

theorem splitOnChar_joinComma (l : List String) (hne : l ≠ [])
    (h : ∀ s ∈ l, ',' ∉ s.data) :
    splitOnChar ',' (joinComma l) = l := by
  induction l with
  | nil => exact absurd rfl hne
  | cons s rest ih =>
    cases rest with
    | nil =>
      have hs : ',' ∉ s.data := h s (List.mem_cons_self s [])
      simp [joinComma, splitOnChar, splitOnCharList_of_not_mem ',' s.data hs]
    | cons t rest2 =>
      have hs : ',' ∉ s.data := h s (List.mem_cons_self _ _)
      have hrest : ∀ u ∈ t :: rest2, ',' ∉ u.data := fun u hu => h u (List.mem_cons_of_mem s hu)
      have hdata : (joinComma (s :: t :: rest2)).data
          = s.data ++ ',' :: (joinComma (t :: rest2)).data := by
        show (s ++ SLACK_INFO_DELIMITER ++ joinComma (t :: rest2)).data = _
        simp [SLACK_INFO_DELIMITER, String.data_append]
      have ih2 := ih (by simp) hrest
      simp only [splitOnChar, hdata, splitOnCharList_append ',' s.data _ hs]
      simp only [splitOnChar] at ih2
      simp [ih2]

theorem parse_pair_to_kv (k : KeysToTemporalAction) (v : String) :
    parse_pair (k.to_kv v) = Except.ok (k, v) := by
  obtain ⟨c, hc, hne, _, hkey⟩ := key_str_head k
  simp only [parse_pair, data_to_kv, hc, List.cons_append, List.nil_append]
  simp [splitFirstChar, hne, hkey]

theorem parse_pairs_to_kv (ps : List (KeysToTemporalAction × String)) :
    parse_pairs (ps.map fun p => p.1.to_kv p.2) = Except.ok ps := by
  induction ps with
  | nil => rfl
  | cons p ps ih =>
    simp [parse_pairs, parse_pair_to_kv, ih, Bind.bind, Except.bind, pure, Except.pure]

theorem ite_empty_optStr (o : Option String) :
    (if optStr o = "" then none else some (optStr o)) = normalizeOpt o := by
  cases o <;> simp [optStr, normalizeOpt]

theorem decode_encode_execute (e : ExecuteTemporalWorkflow)
    (hns : ',' ∉ e.namespace'.data) (htq : ',' ∉ e.task_queue.data)
    (hw : ',' ∉ e.workflow_id.data) (hy : ',' ∉ e.workflow_type.data) :
    decode (build_slack_info_string (.Execute e)) =
      Except.ok (.Execute ⟨e.namespace', e.task_queue, e.workflow_id, e.workflow_type, none⟩) := by
  have hpairs : slack_kv_pairs (.Execute e) =
      ([(.E, "Execute"), (.W, e.workflow_id), (.N, e.namespace'),
        (.T, e.task_queue), (.Y, e.workflow_type)] :
        List (KeysToTemporalAction × String)).map (fun p => p.1.to_kv p.2) := rfl
  have hsplit : splitOnChar ',' (build_slack_info_string (.Execute e))
      = slack_kv_pairs (.Execute e) := by
    apply splitOnChar_joinComma
    · simp [hpairs]
    · intro s hs
      rw [hpairs] at hs
      simp only [List.mem_map, List.mem_cons, List.mem_singleton] at hs
      obtain ⟨p, hp, rfl⟩ := hs
      rcases hp with rfl | rfl | rfl | rfl | rfl | h
      · exact comma_not_mem_to_kv _ _ (by decide)
      · exact comma_not_mem_to_kv _ _ hw
      · exact comma_not_mem_to_kv _ _ hns
      · exact comma_not_mem_to_kv _ _ htq
      · exact comma_not_mem_to_kv _ _ hy
      · exact absurd h (by simp)
  simp only [decode, hsplit, hpairs, parse_pairs_to_kv]
  simp [Bind.bind, Except.bind, build_map, EncoderMap.insert, EncoderMap.empty,
    KeysToTemporalAction.get_value, EncoderMap.removeKey, List.foldl, pure, Except.pure]

theorem decode_encode_signal (s : SignalTemporal)
    (hns : ',' ∉ s.namespace'.data) (htq : ',' ∉ s.task_queue.data)
    (hw : ',' ∉ (optStr s.workflow_id).data) (hr : ',' ∉ (optStr s.run_id).data)
    (hsn : ',' ∉ s.signal_name.data) :
    decode (build_slack_info_string (.Signal s)) =
      Except.ok (.Signal ⟨s.namespace', s.task_queue, normalizeOpt s.workflow_id,
        normalizeOpt s.run_id, s.signal_name, none, none, none, none⟩) := by
  have hpairs : slack_kv_pairs (.Signal s) =
      ([(.E, "Signal"), (.W, optStr s.workflow_id), (.N, s.namespace'),
        (.T, s.task_queue), (.R, optStr s.run_id), (.S, s.signal_name)] :
        List (KeysToTemporalAction × String)).map (fun p => p.1.to_kv p.2) := rfl
  have hsplit : splitOnChar ',' (build_slack_info_string (.Signal s))
      = slack_kv_pairs (.Signal s) := by
    apply splitOnChar_joinComma
    · simp [hpairs]
    · intro u hu
      rw [hpairs] at hu
      simp only [List.mem_map, List.mem_cons, List.mem_singleton] at hu
      obtain ⟨p, hp, rfl⟩ := hu
      rcases hp with rfl | rfl | rfl | rfl | rfl | rfl | h
      · exact comma_not_mem_to_kv _ _ (by decide)
      · exact comma_not_mem_to_kv _ _ hw
      · exact comma_not_mem_to_kv _ _ hns
      · exact comma_not_mem_to_kv _ _ htq
      · exact comma_not_mem_to_kv _ _ hr
      · exact comma_not_mem_to_kv _ _ hsn
      · exact absurd h (by simp)
  simp only [decode, hsplit, hpairs, parse_pairs_to_kv]
  simp [Bind.bind, Except.bind, build_map, EncoderMap.insert, EncoderMap.empty,
    KeysToTemporalAction.get_value, EncoderMap.removeKey, opt_value, List.foldl,
    pure, Except.pure, ite_empty_optStr]

end TemporalTemplate

namespace SdkHelpers

/-! Embedding of `crates/temporal_sdk_helpers/src/lib.rs` (the
dispatcher).  Its data model differs from the template crate's: the
`TemporalInteraction` enum here has only `ExecuteWorkflow` and `Signal`
variants (`Query` is commented out in the source).  The Temporal client
connection and the network calls are external collaborators; they enter
as parameters.  Rust's `todo!()` placeholders are embedded as a
distinguished `panicked` outcome carrying the panic message. -/

/-- The message Rust's `todo!()` macro panics with. -/
def todoMessage : String := "not yet implemented"

/-- The observable outcome of one of the dispatcher's async functions:
return `Ok`, return `Err` (the `?`-propagated or external error), or
panic. -/
inductive RustOutcome (ε α : Type) where
  | ok (a : α)
  | err (e : ε)
  | panicked (msg : String)

/-- `Payload` with json/plain metadata, as `as_payload` builds it. -/
structure Payload where
  encoding : String
  data : String

/-- `as_payload`: a json/plain payload carrying the value's text. -/
def as_payload (value : TemporalTemplate.JsonValue) : Payload :=
  ⟨"json/plain", value⟩

/-- `ExecuteTemporalWorkflow` of the helpers crate. -/
structure ExecuteTemporalWorkflow where
  namespace' : String
  task_queue : String
  workflow_id : String
  workflow_type : String
  args : Option (List TemporalTemplate.JsonValue)

/-- `TemporalWorkflowExecutionInfo` of the helpers crate. -/
structure TemporalWorkflowExecutionInfo where
  workflow_id : String
  run_id : String

/-- `SignalTemporal` of the helpers crate (note: `workflow_execution`
instead of separate optional ids, and non-optional string extras). -/
structure SignalTemporal where
  namespace' : String
  task_queue : String
  workflow_execution : Option TemporalWorkflowExecutionInfo
  signal_name : String
  input : Option (List TemporalTemplate.JsonValue)
  identity : String
  request_id : String
  control : String

/-- `QueryTemporal` of the helpers crate. -/
structure QueryTemporal where
  namespace' : String
  task_queue : String

/-- The fields of `StartWorkflowExecutionRequest` the source determines
from its inputs (`request_id` is a fresh UUID, passed in here as a
parameter; the option-derived timeout/policy fields of the external
request type are part of the opaque collaborator and carry no logic). -/
structure StartWorkflowExecutionRequest where
  namespace' : String
  input : Option (List Payload)
  workflow_id : String
  workflow_type : String
  task_queue : String
  request_id : String

/-- `StartWorkflowExecutionResponse`: the run id the engine returns. -/
structure StartWorkflowExecutionResponse where
  run_id : String

/-- `SignalWorkflowExecutionResponse` is opaque to the dispatcher. -/
def SignalWorkflowExecutionResponse := Unit

/-- `QueryWorkflowResponse` is opaque to the dispatcher. -/
def QueryWorkflowResponse := Unit

/-- `build_workflow_execution_request` restricted to the determined
fields. -/
def build_workflow_execution_request (namespace' : String)
    (input : Option (List TemporalTemplate.JsonValue)) (task_queue : String)
    (workflow_id : String) (workflow_type : String) (request_id : String) :
    StartWorkflowExecutionRequest :=
  ⟨namespace', input.map fun inputs => inputs.map as_payload,
    workflow_id, workflow_type, task_queue, request_id⟩

/-- `query_temporal`: builds the client, then constructs a
`QueryWorkflowRequest` whose `execution` and `query` fields are
`todo!()` placeholders — the construction panics before any call is
made.  `clientResult` is the outcome of the external
`build_temporal_client_without_namespace` call. -/
def query_temporal (clientResult : Except String Unit) (query_info : QueryTemporal) :
    RustOutcome String QueryWorkflowResponse :=
  match clientResult with
  | .error e => .err e
  | .ok _ =>
    let _namespace := query_info.namespace'
    .panicked todoMessage

/-- `signal_temporal`: converts the input payloads, builds the client,
then constructs a `SignalWorkflowExecutionRequest` whose
`workflow_execution` ids are `todo!()` placeholders — the construction
panics before any call is made. -/
def signal_temporal (clientResult : Except String Unit) (signal_info : SignalTemporal) :
    RustOutcome String SignalWorkflowExecutionResponse :=
  let _input := signal_info.input.map fun inputs => inputs.map as_payload
  match clientResult with
  | .error e => .err e
  | .ok _ => .panicked todoMessage

/-- `start_temporal_workflow`: builds the client, builds the request,
performs the external call (`svc`), and returns its response;
`request_id` stands for the fresh UUID. -/
def start_temporal_workflow (clientResult : Except String Unit)
    (svc : StartWorkflowExecutionRequest → Except String StartWorkflowExecutionResponse)
    (request_id : String) (workflow_info : ExecuteTemporalWorkflow) :
    RustOutcome String StartWorkflowExecutionResponse :=
  match clientResult with
  | .error e => .err e
  | .ok _ =>
    match svc (build_workflow_execution_request workflow_info.namespace'
        workflow_info.args workflow_info.task_queue workflow_info.workflow_id
        workflow_info.workflow_type request_id) with
    | .error e => .err e
    | .ok r => .ok r

/-- The dispatcher's `TemporalInteraction` enum: only `ExecuteWorkflow`
and `Signal`; the `Query` variant is commented out in the source. -/
inductive TemporalInteraction where
  | ExecuteWorkflow (wf_info : ExecuteTemporalWorkflow)
  | Signal (signal_info : SignalTemporal)

/-- `TemporalExecuteWorkflowResponse`. -/
structure TemporalExecuteWorkflowResponse where
  run_id : String

/-- `TemporalSignalResponse` (empty). -/
structure TemporalSignalResponse where

/-- The dispatcher's response union (its `Query` variant is likewise
commented out in the source). -/
inductive TemporalInteractionResponse where
  | ExecuteWorkflow (r : TemporalExecuteWorkflowResponse)
  | Signal (r : TemporalSignalResponse)

/-- `TemporalInteraction::execute`: one external call per variant,
normalised into the response union. -/
def TemporalInteraction.execute (clientResult : Except String Unit)
    (svc : StartWorkflowExecutionRequest → Except String StartWorkflowExecutionResponse)
    (request_id : String) :
    TemporalInteraction → RustOutcome String TemporalInteractionResponse
  | .ExecuteWorkflow wf_info =>
    match start_temporal_workflow clientResult svc request_id wf_info with
    | .ok r => .ok (.ExecuteWorkflow ⟨r.run_id⟩)
    | .err e => .err e
    | .panicked m => .panicked m
  | .Signal signal_info =>
    match signal_temporal clientResult signal_info with
    | .ok _ => .ok (.Signal ⟨⟩)
    | .err e => .err e
    | .panicked m => .panicked m

end SdkHelpers

namespace TemporalTemplate

/-! The claim theorems. -/

/-- C1 (amended): for every Execute or Signal descriptor whose encoded
field values contain neither `,` nor `:`, decoding the encoded token
succeeds and yields the descriptor back: required fields unchanged,
optional-but-absent fields in their absent/empty representation, and
out-of-band payload fields `none`.  Query descriptors are excluded: the
encoder's Query arm discards every pair after the EventType pair, so a
Query token cannot round-trip (see the counterexample). -/
theorem roundtrip_decode_encode (ti : TemporalInteraction)
    (hdf : fields_delim_free ti) (hnq : ∀ q, ti ≠ .Query q) :
    decode (build_slack_info_string ti) = Except.ok (decode_roundtrip_form ti) := by
  cases ti with
  | Execute e =>
    obtain ⟨h1, h2, h3, h4⟩ := hdf
    exact decode_encode_execute e h1.1 h2.1 h3.1 h4.1
  | Signal s =>
    obtain ⟨h1, h2, h3, h4, h5⟩ := hdf
    exact decode_encode_signal s h1.1 h2.1 h3.1 h4.1 h5.1
  | Query q => exact absurd rfl (hnq q)

/-- C1 witness: the round trip at a concrete Execute descriptor. -/
theorem roundtrip_decode_encode_witness :
    decode (build_slack_info_string (.Execute ⟨"ns", "tq", "wf1", "Greet", none⟩))
      = Except.ok (decode_roundtrip_form (.Execute ⟨"ns", "tq", "wf1", "Greet", none⟩)) :=
  roundtrip_decode_encode (.Execute ⟨"ns", "tq", "wf1", "Greet", none⟩)
    (show delim_free "ns" ∧ delim_free "tq" ∧ delim_free "wf1" ∧ delim_free "Greet"
      from by decide)
    (fun q h => nomatch h)

/-- C1 counterexample: the claim as stated fails on a Query descriptor
with delimiter-free fields — its token is `E:Query`, and decoding that
token fails with `KeyMissing Namespace` instead of yielding the
descriptor back. -/
theorem roundtrip_query_counterexample :
    decode (build_slack_info_string (.Query ⟨"ns", "tq", none, none, "qt", some ["a1"]⟩))
      = Except.error (DecodeError.KeyMissing .N) := rfl

/-- C2: at the failing input `Query{namespace: "ns", task_queue: "tq",
query_type: "qt", query_args: ["a1"]}` the encoder emits only
`E:Query` — not the claimed `key:value` pairs for Namespace, TaskQueue,
QueryType, QueryArgs and WorkflowId — because the Query arm discards the
pairs it computes. -/
theorem query_token_bug_at_failing_input :
    build_slack_info_string (.Query ⟨"ns", "tq", none, none, "qt", some ["a1"]⟩)
      = "E:Query" := rfl

/-- C3: for every Query descriptor, `build_slack_info_string` returns
exactly `E:Query`: the Query arm's computed pairs are never appended, so
no Query field value reaches the wire token. -/
theorem query_encoding_event_pair_only (q : QueryTemporal) :
    build_slack_info_string (.Query q) = "E:Query" := rfl

/-- C4: the Execute example encodes to exactly
`E:Execute,W:wf1,N:ns,T:tq,Y:Greet` — the EventType pair first, then the
variant's fields in registry order, joined by `,` without a trailing
delimiter. -/
theorem execute_example_token :
    build_slack_info_string (.Execute ⟨"ns", "tq", "wf1", "Greet", none⟩)
      = "E:Execute,W:wf1,N:ns,T:tq,Y:Greet" := by decide

/-- C5: the Signal example encodes to exactly
`E:Signal,W:wf-123,N:default,T:tq1,R:run-9,S:approve-signal`. -/
theorem signal_example_token :
    build_slack_info_string
        (.Signal ⟨"default", "tq1", some "wf-123", some "run-9", "approve-signal",
          none, none, none, none⟩)
      = "E:Signal,W:wf-123,N:default,T:tq1,R:run-9,S:approve-signal" := by decide

/-- C6: a Signal descriptor with absent `workflow_id` and `run_id` still
emits the WorkflowId and RunId pairs, with empty values (`W:` and `R:`),
never omitting the keys. -/
theorem signal_absent_optionals_emit_empty_pairs (s : SignalTemporal)
    (hw : s.workflow_id = none) (hr : s.run_id = none) :
    slack_kv_pairs (.Signal s) =
      ["E:Signal", "W:", "N:" ++ s.namespace', "T:" ++ s.task_queue, "R:",
        "S:" ++ s.signal_name] := by
  show [KeysToTemporalAction.E.to_kv "Signal",
      KeysToTemporalAction.W.to_kv (optStr s.workflow_id),
      KeysToTemporalAction.N.to_kv s.namespace',
      KeysToTemporalAction.T.to_kv s.task_queue,
      KeysToTemporalAction.R.to_kv (optStr s.run_id),
      KeysToTemporalAction.S.to_kv s.signal_name] = _
  rw [hw, hr]
  simp [KeysToTemporalAction.to_kv, KeysToTemporalAction.str,
    TEMPORAL_KEY_DELIMITER, optStr]

/-- C6 witness: the pair list at a concrete Signal descriptor with both
optional ids absent. -/
theorem signal_absent_optionals_emit_empty_pairs_witness :
    slack_kv_pairs (.Signal ⟨"default", "tq1", none, none, "sig", none, none, none, none⟩)
      = ["E:Signal", "W:", "N:" ++ "default", "T:" ++ "tq1", "R:", "S:" ++ "sig"] :=
  signal_absent_optionals_emit_empty_pairs
    ⟨"default", "tq1", none, none, "sig", none, none, none, none⟩ rfl rfl

/-- C7: `get_value` is a single-use extraction: a bound key yields its
value and is removed, so a second fetch of the same key fails, and no
other key's binding changes; an unbound key is an error (`KeyMissing`),
with the map left unchanged. -/
theorem get_value_single_use (k : KeysToTemporalAction) (m : EncoderMap) :
    (∀ v, m k = some v →
      KeysToTemporalAction.get_value k m = (Except.ok v, m.removeKey k) ∧
      (KeysToTemporalAction.get_value k (m.removeKey k)).1
        = Except.error (DecodeError.KeyMissing k) ∧
      ∀ k2, k2 ≠ k → m.removeKey k k2 = m k2) ∧
    (m k = none →
      KeysToTemporalAction.get_value k m
        = (Except.error (DecodeError.KeyMissing k), m)) := by
  constructor
  · intro v hv
    refine ⟨?_, ?_, ?_⟩
    · simp [KeysToTemporalAction.get_value, hv]
    · simp [KeysToTemporalAction.get_value, EncoderMap.removeKey]
    · intro k2 hk2
      simp [EncoderMap.removeKey, hk2]
  · intro hnone
    simp [KeysToTemporalAction.get_value, hnone]

/-- C7 witness: single-use extraction at a concrete one-entry map. -/
theorem get_value_single_use_witness :
    KeysToTemporalAction.get_value .W (EncoderMap.insert EncoderMap.empty .W "wf1")
      = (Except.ok "wf1", (EncoderMap.insert EncoderMap.empty .W "wf1").removeKey .W) :=
  ((get_value_single_use .W (EncoderMap.insert EncoderMap.empty .W "wf1")).1 "wf1" rfl).1

/-- C8: `add_data_args` returns a descriptor of the same variant whose
payload field (`args` / `input` / `query_args`) is the given argument
list and whose every other field is unchanged. -/
theorem add_data_args_frame (args : Option (List JsonValue)) :
    (∀ e : ExecuteTemporalWorkflow,
      TemporalInteraction.add_data_args (.Execute e) args
        = .Execute ⟨e.namespace', e.task_queue, e.workflow_id, e.workflow_type, args⟩) ∧
    (∀ s : SignalTemporal,
      TemporalInteraction.add_data_args (.Signal s) args
        = .Signal ⟨s.namespace', s.task_queue, s.workflow_id, s.run_id, s.signal_name,
            args, s.identity, s.request_id, s.control⟩) ∧
    (∀ q : QueryTemporal,
      TemporalInteraction.add_data_args (.Query q) args
        = .Query ⟨q.namespace', q.task_queue, q.workflow_id, q.run_id, q.query_type, args⟩) :=
  ⟨fun _ => rfl, fun _ => rfl, fun _ => rfl⟩

/-- C9: the encoder is deterministic — equal descriptors encode to the
identical string. -/
theorem encoder_deterministic (d1 d2 : TemporalInteraction) (h : d1 = d2) :
    build_slack_info_string d1 = build_slack_info_string d2 := by
  rw [h]

/-- C9 witness: determinism at a concrete descriptor. -/
theorem encoder_deterministic_witness :
    build_slack_info_string (.Execute ⟨"ns", "tq", "wf1", "Greet", none⟩)
      = build_slack_info_string (.Execute ⟨"ns", "tq", "wf1", "Greet", none⟩) :=
  encoder_deterministic (.Execute ⟨"ns", "tq", "wf1", "Greet", none⟩)
    (.Execute ⟨"ns", "tq", "wf1", "Greet", none⟩) rfl

end TemporalTemplate

/-- C10: in the dispatcher, `query_temporal` and `signal_temporal` panic
at the `todo!()` placeholders as soon as the outbound request is
constructed (whenever the client build succeeds), and can never return
`Ok` under any client outcome — including when dispatched through
`TemporalInteraction::execute`'s Signal arm; the dispatcher enum offers
only `ExecuteWorkflow` and `Signal` variants (no Query), and only the
Execute path can complete. -/
theorem dispatcher_unimplemented_paths :
    (∀ q : SdkHelpers.QueryTemporal,
      SdkHelpers.query_temporal (Except.ok ()) q
        = .panicked SdkHelpers.todoMessage) ∧
    (∀ s : SdkHelpers.SignalTemporal,
      SdkHelpers.signal_temporal (Except.ok ()) s
        = .panicked SdkHelpers.todoMessage) ∧
    (∀ (c : Except String Unit) (q : SdkHelpers.QueryTemporal)
        (r : SdkHelpers.QueryWorkflowResponse),
      SdkHelpers.query_temporal c q ≠ .ok r) ∧
    (∀ (c : Except String Unit) (s : SdkHelpers.SignalTemporal)
        (r : SdkHelpers.SignalWorkflowExecutionResponse),
      SdkHelpers.signal_temporal c s ≠ .ok r) ∧
    (∀ (c : Except String Unit) svc (rid : String) (s : SdkHelpers.SignalTemporal)
        (r : SdkHelpers.TemporalInteractionResponse),
      SdkHelpers.TemporalInteraction.execute c svc rid (.Signal s) ≠ .ok r) ∧
    (∀ x : SdkHelpers.TemporalInteraction,
      (∃ w, x = SdkHelpers.TemporalInteraction.ExecuteWorkflow w) ∨
      (∃ s, x = SdkHelpers.TemporalInteraction.Signal s)) ∧
    (∃ (svc : SdkHelpers.StartWorkflowExecutionRequest →
          Except String SdkHelpers.StartWorkflowExecutionResponse)
        (rid : String) (w : SdkHelpers.ExecuteTemporalWorkflow)
        (r : SdkHelpers.StartWorkflowExecutionResponse),
      SdkHelpers.start_temporal_workflow (Except.ok ()) svc rid w = .ok r) := by
  refine ⟨fun q => rfl, fun s => rfl, ?_, ?_, ?_, ?_, ?_⟩
  · intro c q r h
    cases c <;> simp [SdkHelpers.query_temporal] at h
  · intro c s r h
    cases c <;> simp [SdkHelpers.signal_temporal] at h
  · intro c svc rid s r h
    cases c <;>
      simp [SdkHelpers.TemporalInteraction.execute, SdkHelpers.signal_temporal] at h
  · intro x
    cases x with
    | ExecuteWorkflow w => exact Or.inl ⟨w, rfl⟩
    | Signal s => exact Or.inr ⟨s, rfl⟩
  · exact ⟨fun _ => Except.ok ⟨"run-1"⟩, "rid-1", ⟨"ns", "tq", "wf1", "Greet", none⟩,
      ⟨"run-1"⟩, rfl⟩

/-- C10 witness: the query path panics at a concrete descriptor. -/
theorem dispatcher_unimplemented_paths_witness :
    SdkHelpers.query_temporal (Except.ok ()) ⟨"ns", "tq"⟩
      = .panicked SdkHelpers.todoMessage :=
  dispatcher_unimplemented_paths.1 ⟨"ns", "tq"⟩
